import Mathlib

/-!
Verification of the CTRK telemetry decoder (ctrk_parser.py).

The development shallowly embeds the decoder's core: channel state, the CAN
payload handlers, the timestamp reconstruction (GetTimeDataEx), NMEA/GPRMC
handling, finish-line geometry, and the continuous-mode main loop of
CTRKParser._parse_data_section, at the level of framed records.

Conventions of the embedding:
- Python byte strings become List Nat (each element a byte value 0..255);
  indexing with a possible IndexError becomes List.get? and Option binds.
- Python unbounded ints on non-negative data stay in Nat; `&`, `|`, `<<`,
  `>>`, `%` become Nat.land, Nat.lor, shiftLeft, shiftRight, mod, which agree
  with Python on non-negative operands.  Where Python subtraction appears it
  is guarded so that Nat subtraction is exact; epoch arithmetic, which mixes
  signs, is done in Int.
- Python floats for GPS coordinates become ℚ.  On the inputs the claims are
  about (small integers and short decimal literals) double arithmetic is
  exact, so the rational model coincides with the float computation there.
- Python exceptions escaping a function become an Option-valued result
  (none = the exception propagates).
-/

namespace CTRK

/-- Channel state: the self._state dictionary built in CTRKParser.__init__
with every value zero.  The keys named lean and lean_signed in the source
are the fields lean_raw and lean_signed here. -/
structure ChanState where
  rpm : Nat := 0
  gear : Nat := 0
  aps : Nat := 0
  tps : Nat := 0
  water_temp : Nat := 0
  intake_temp : Nat := 0
  front_speed : Nat := 0
  rear_speed : Nat := 0
  front_brake : Nat := 0
  rear_brake : Nat := 0
  acc_x : Nat := 0
  acc_y : Nat := 0
  lean_raw : Nat := 0
  lean_signed : Nat := 0
  pitch : Nat := 0
  f_abs : Bool := false
  r_abs : Bool := false
  tcs : Nat := 0
  scs : Nat := 0
  lif : Nat := 0
  launch : Nat := 0
  fuel : Nat := 0
  deriving Repr, DecidableEq

/-- parse_can_0x0209: rpm from bytes 0-1 (big-endian), gear from byte 4
low 3 bits, gear 7 rejected. -/
def parse_can_0x0209 (data : List Nat) (st : ChanState) : Option ChanState := do
  let b0 ← data.get? 0
  let b1 ← data.get? 1
  let b4 ← data.get? 4
  let st := { st with rpm := (b0 <<< 8) ||| b1 }
  let gear := b4 &&& 0x07
  if gear ≠ 7 then
    pure { st with gear := gear }
  else
    pure st

/-- parse_can_0x0215: tps, aps, launch, tcs, scs, lif. -/
def parse_can_0x0215 (data : List Nat) (st : ChanState) : Option ChanState := do
  let b0 ← data.get? 0
  let b1 ← data.get? 1
  let b2 ← data.get? 2
  let b3 ← data.get? 3
  let b6 ← data.get? 6
  let b7 ← data.get? 7
  pure { st with
    tps := (b0 <<< 8) ||| b1
    aps := (b2 <<< 8) ||| b3
    launch := if b6 &&& 0x60 ≠ 0 then 1 else 0
    tcs := (b7 >>> 5) &&& 1
    scs := (b7 >>> 4) &&& 1
    lif := (b7 >>> 3) &&& 1 }

/-- parse_can_0x023e: water/intake temperature single bytes, fuel delta from
bytes 2-3 added to the fuel accumulator; the updated accumulator is also
copied into the fuel channel. -/
def parse_can_0x023e (data : List Nat) (st : ChanState) (fuelAcc : Nat) :
    Option (ChanState × Nat) := do
  let b0 ← data.get? 0
  let b1 ← data.get? 1
  let b2 ← data.get? 2
  let b3 ← data.get? 3
  let fuelDelta := (b2 <<< 8) ||| b3
  let acc := fuelAcc + fuelDelta
  pure ({ st with water_temp := b0, intake_temp := b1, fuel := acc }, acc)

/-- parse_can_0x0250: longitudinal and lateral acceleration. -/
def parse_can_0x0250 (data : List Nat) (st : ChanState) : Option ChanState := do
  let b0 ← data.get? 0
  let b1 ← data.get? 1
  let b2 ← data.get? 2
  let b3 ← data.get? 3
  pure { st with acc_x := (b0 <<< 8) ||| b1, acc_y := (b2 <<< 8) ||| b3 }

/-- parse_can_0x0258: IMU lean and pitch.  The lean value is unpacked from
interleaved nibbles of bytes 0-3, recentered around 9000, put through a
deadband of 499 and truncated to a multiple of 100.  The Nat subtractions
9000 - sum_val, sum_val - 9000 and 9000 - deviation_rounded are exact under
the guards in scope (sum_val < 9000, 9000 ≤ sum_val, and
deviation_rounded ≤ deviation = 9000 - sum_val ≤ 9000 respectively), so they
agree with the Python int subtractions. -/
def parse_can_0x0258 (data : List Nat) (st : ChanState) : Option ChanState := do
  let b0 ← data.get? 0
  let b1 ← data.get? 1
  let b2 ← data.get? 2
  let b3 ← data.get? 3
  let val1_part := (b0 <<< 4) ||| (b2 &&& 0x0f)
  let val1 := val1_part <<< 8
  let val2 := ((b1 &&& 0x0f) <<< 4) ||| (b3 >>> 4)
  let sum_val := (val1 + val2) &&& 0xFFFF
  let deviation := if sum_val < 9000 then 9000 - sum_val else (sum_val - 9000) &&& 0xFFFF
  let st :=
    if deviation ≤ 499 then
      { st with lean_raw := 9000, lean_signed := 9000 }
    else
      let deviation_rounded := deviation - deviation % 100
      let st := { st with lean_raw := (9000 + deviation_rounded) &&& 0xFFFF }
      if sum_val < 9000 then
        { st with lean_signed := 9000 - deviation_rounded }
      else
        { st with lean_signed := 9000 + deviation_rounded }
  let b6 ← data.get? 6
  let b7 ← data.get? 7
  pure { st with pitch := (b6 <<< 8) ||| b7 }

/-- parse_can_0x0260: front and rear brake pressure. -/
def parse_can_0x0260 (data : List Nat) (st : ChanState) : Option ChanState := do
  let b0 ← data.get? 0
  let b1 ← data.get? 1
  let b2 ← data.get? 2
  let b3 ← data.get? 3
  pure { st with front_brake := (b0 <<< 8) ||| b1, rear_brake := (b2 <<< 8) ||| b3 }

/-- parse_can_0x0264: front and rear wheel speed. -/
def parse_can_0x0264 (data : List Nat) (st : ChanState) : Option ChanState := do
  let b0 ← data.get? 0
  let b1 ← data.get? 1
  let b2 ← data.get? 2
  let b3 ← data.get? 3
  pure { st with front_speed := (b0 <<< 8) ||| b1, rear_speed := (b2 <<< 8) ||| b3 }

/-- parse_can_0x0268: ABS flags, R_ABS bit 0 and F_ABS bit 1 of byte 4. -/
def parse_can_0x0268 (data : List Nat) (st : ChanState) : Option ChanState := do
  let b4 ← data.get? 4
  pure { st with r_abs := b4 &&& 1 ≠ 0, f_abs := (b4 >>> 1) &&& 1 ≠ 0 }

/-- Leap-year rule of the proleptic Gregorian calendar, as used by Python's
datetime module. -/
def isLeapYear (y : Nat) : Bool := y % 4 == 0 && (y % 100 != 0 || y % 400 == 0)

/-- Number of days in a month, as used by datetime's validity check. -/
def daysInMonth (y m : Nat) : Nat :=
  if m == 2 then (if isLeapYear y then 29 else 28)
  else if m == 4 || m == 6 || m == 9 || m == 11 then 30
  else 31

/-- Argument ranges accepted by datetime(year, month, day, hour, minute,
second); outside them the constructor raises ValueError. -/
def validCalendar (yr mo da hr mi se : Nat) : Bool :=
  1 ≤ yr && yr ≤ 9999 && 1 ≤ mo && mo ≤ 12 &&
  1 ≤ da && da ≤ daysInMonth yr mo &&
  hr ≤ 23 && mi ≤ 59 && se ≤ 59

/-- Days from 1970-01-01 to the civil date y-m-d (proleptic Gregorian,
y ≥ 1).  Standard days-from-civil computation; all intermediate quantities
are non-negative for y ≥ 1, so Nat arithmetic is exact. -/
def daysFromCivil (y m d : Nat) : Int :=
  let yy : Nat := if m ≤ 2 then y - 1 else y
  let era : Nat := yy / 400
  let yoe : Nat := yy % 400
  let mp : Nat := (m + 9) % 12
  let doy : Nat := (153 * mp + 2) / 5 + d - 1
  let doe : Nat := yoe * 365 + yoe / 4 - yoe / 100 + doy
  (era * 146097 + doe : Int) - 719468

/-- CTRKParser._get_time_data.  The 10-byte timestamp holds millis (u16 LE),
second, minute, hour, weekday (unused), day, month, year (u16 LE).  The
Python code builds a naive datetime and calls .timestamp(), which interprets
the calendar fields in the host's local timezone; tz is that host's UTC
offset in seconds (0 on a UTC host; a fixed offset models a DST-free host
zone).  Returns none when datetime(...) would raise ValueError, or when an
index is out of range (IndexError). -/
def getTimeData (tz : Int) (ts : List Nat) : Option Int := do
  let t0 ← ts.get? 0
  let t1 ← ts.get? 1
  let se ← ts.get? 2
  let mi ← ts.get? 3
  let hr ← ts.get? 4
  let da ← ts.get? 6
  let mo ← ts.get? 7
  let y0 ← ts.get? 8
  let y1 ← ts.get? 9
  let millis := t0 ||| (t1 <<< 8)
  let yr := y0 ||| (y1 <<< 8)
  if validCalendar yr mo da hr mi se then
    let civilSec : Int := daysFromCivil yr mo da * 86400 + hr * 3600 + mi * 60 + se
    some ((civilSec - tz) * 1000 + millis)
  else
    none

/-- Finish line from the header RECORDLINE entries.  Coordinates are ℚ in
place of IEEE doubles; on the inputs appearing in the claims, double
arithmetic is exact so the two agree. -/
structure FinishLine where
  p1_lat : ℚ
  p1_lng : ℚ
  p2_lat : ℚ
  p2_lng : ℚ
  deriving Repr, DecidableEq

/-- FinishLine.side_of_line: cross product z-component telling which side of
the line the point is on. -/
def FinishLine.side_of_line (f : FinishLine) (lat lng : ℚ) : ℚ :=
  let dx := f.p2_lng - f.p1_lng
  let dy := f.p2_lat - f.p1_lat
  let px := lng - f.p1_lng
  let py := lat - f.p1_lat
  dx * py - dy * px

/-- FinishLine.crosses_line: side-of-line sign change, parallel rejection at
1e-12, and a parametric bound 0 ≤ t ≤ 1 along the finish-line segment. -/
def FinishLine.crosses_line (f : FinishLine) (lat1 lng1 lat2 lng2 : ℚ) : Bool :=
  let side1 := f.side_of_line lat1 lng1
  let side2 := f.side_of_line lat2 lng2
  if side1 * side2 ≥ 0 then
    false
  else
    let dx1 := f.p2_lng - f.p1_lng
    let dy1 := f.p2_lat - f.p1_lat
    let dx2 := lng2 - lng1
    let dy2 := lat2 - lat1
    let denom := dx1 * dy2 - dy1 * dx2
    if |denom| < 1 / 1000000000000 then
      false
    else
      let t := ((lng1 - f.p1_lng) * dy2 - (lat1 - f.p1_lat) * dx2) / denom
      decide (0 ≤ t ∧ t ≤ 1)

/-- ASCII decoding with errors=replace followed by rstrip of CR, LF and NUL:
bytes ≥ 128 decode to U+FFFD (code point 65533). -/
def decodeSentence (payload : List Nat) : List Nat :=
  ((payload.map fun b => if b ≥ 128 then 65533 else b).reverse.dropWhile
    fun c => c == 13 || c == 10 || c == 0).reverse

/-- Value of one hexadecimal digit character code.  int(s, 16) in the
checksum check receives exactly two characters; beyond hex digits it would
also tolerate a sign or whitespace, which do not occur in NMEA checksums and
are not modelled. -/
def hexDigit (c : Nat) : Option Nat :=
  if 48 ≤ c ∧ c ≤ 57 then some (c - 48)
  else if 65 ≤ c ∧ c ≤ 70 then some (c - 55)
  else if 97 ≤ c ∧ c ≤ 102 then some (c - 87)
  else none

/-- CTRKParser._validate_nmea_checksum: XOR of the characters strictly
between the leading character and the first star must match the two hex
digits after the star. -/
def validateNmeaChecksum (s : List Nat) : Bool :=
  match s.findIdx? (· == 42) with
  | none => false
  | some starIdx =>
    if starIdx < 1 ∨ starIdx + 3 > s.length then
      false
    else
      let computed := ((s.drop 1).take (starIdx - 1)).foldl (fun a c => a ^^^ c) 0
      match hexDigit (s.getD (starIdx + 1) 0), hexDigit (s.getD (starIdx + 2) 0) with
      | some h, some l => computed == 16 * h + l
      | _, _ => false

/-- Python float(s) on the plain decimal literals found in GPRMC fields:
optional sign, digits with at most one decimal point, at least one digit.
The value is exact in ℚ.  none models ValueError. -/
def parseDecimal (s0 : List Nat) : Option ℚ :=
  let signed : Bool × List Nat :=
    match s0 with
    | 45 :: rest => (true, rest)
    | 43 :: rest => (false, rest)
    | _ => (false, s0)
  let digitsToNat : List Nat → Nat := fun l => l.foldl (fun a c => a * 10 + (c - 48)) 0
  let isDigit : Nat → Bool := fun c => 48 ≤ c && c ≤ 57
  match signed.2.splitOn 46 with
  | [ip] =>
    if ip ≠ [] ∧ ip.all isDigit then
      some ((if signed.1 then -1 else 1) * (digitsToNat ip : ℚ))
    else none
  | [ip, fp] =>
    if ip ++ fp ≠ [] ∧ (ip ++ fp).all isDigit then
      some ((if signed.1 then -1 else 1) *
        ((digitsToNat ip : ℚ) + (digitsToNat fp : ℚ) / 10 ^ fp.length))
    else none
  | _ => none

/-- CTRKParser._parse_gprmc_sentence: comma-split fields, status field 2 must
be the letter A, latitude ddmm.mmmmm with N/S sign, longitude dddmm.mmmmm
with E/W sign, speed over ground in knots.  none models both the early
return and a caught ValueError/IndexError. -/
def parse_gprmc_sentence (s : List Nat) : Option (ℚ × ℚ × ℚ) := do
  let parts := s.splitOn 44
  if parts.length < 8 then
    none
  else do
    let p2 ← parts.get? 2
    if p2 ≠ [65] then
      none
    else do
      let latStr ← parts.get? 3
      let latDeg ← parseDecimal (latStr.take 2)
      let latMin ← parseDecimal (latStr.drop 2)
      let lat0 := latDeg + latMin / 60
      let p4 ← parts.get? 4
      let lat := if p4 = [83] then -lat0 else lat0
      let lonStr ← parts.get? 5
      let lonDeg ← parseDecimal (lonStr.take 3)
      let lonMin ← parseDecimal (lonStr.drop 3)
      let lon0 := lonDeg + lonMin / 60
      let p6 ← parts.get? 6
      let lon := if p6 = [87] then -lon0 else lon0
      let p7 ← parts.get? 7
      let speed ← if p7 = [] then some (0 : ℚ) else parseDecimal p7
      pure (lat, lon, speed)

/-- One output telemetry sample (TelemetryRecord), raw values only. -/
structure Sample where
  lap : Nat
  time_ms : Int
  latitude : ℚ
  longitude : ℚ
  gps_speed_knots : ℚ
  rpm : Nat
  gear : Nat
  aps : Nat
  tps : Nat
  water_temp : Nat
  intake_temp : Nat
  front_speed : Nat
  rear_speed : Nat
  fuel : Nat
  lean_raw : Nat
  lean_signed : Nat
  pitch : Nat
  acc_x : Nat
  acc_y : Nat
  front_brake : Nat
  rear_brake : Nat
  f_abs : Bool
  r_abs : Bool
  tcs : Nat
  scs : Nat
  lif : Nat
  launch : Nat
  deriving Repr, DecidableEq

/-- Mutable state of CTRKParser during _parse_data_section: the instance
attributes plus the local variables of the loop, at the level of framed
records (the print counters, which do not affect the output, are omitted). -/
structure PState where
  chan : ChanState
  fuelAcc : Nat
  currentLap : Nat
  finishLine : Option FinishLine
  prevLat : ℚ
  prevLng : ℚ
  prevTs : Option (List Nat)
  prevEpoch : Int
  curEpoch : Int
  lastEmit : Option Int
  curLat : ℚ
  curLon : ℚ
  curSpeed : ℚ
  hasGprmc : Bool
  samples : List Sample
  deriving Repr, DecidableEq

/-- Initial parser state: zeroed channel state and accumulator, lap 1,
sentinel 9999.0 GPS coordinates, no previous timestamp, no emission yet. -/
def initPState (fl : Option FinishLine) : PState where
  chan := {}
  fuelAcc := 0
  currentLap := 1
  finishLine := fl
  prevLat := 0
  prevLng := 0
  prevTs := none
  prevEpoch := 0
  curEpoch := 0
  lastEmit := none
  curLat := 9999
  curLon := 9999
  curSpeed := 0
  hasGprmc := false
  samples := []

/-- CTRKParser._create_record: snapshot the channel state into a sample. -/
def createRecord (st : PState) (t : Int) (lat lon sp : ℚ) : Sample where
  lap := st.currentLap
  time_ms := t
  latitude := lat
  longitude := lon
  gps_speed_knots := sp
  rpm := st.chan.rpm
  gear := st.chan.gear
  aps := st.chan.aps
  tps := st.chan.tps
  water_temp := st.chan.water_temp
  intake_temp := st.chan.intake_temp
  front_speed := st.chan.front_speed
  rear_speed := st.chan.rear_speed
  fuel := st.chan.fuel
  lean_raw := st.chan.lean_raw
  lean_signed := st.chan.lean_signed
  pitch := st.chan.pitch
  acc_x := st.chan.acc_x
  acc_y := st.chan.acc_y
  front_brake := st.chan.front_brake
  rear_brake := st.chan.rear_brake
  f_abs := st.chan.f_abs
  r_abs := st.chan.r_abs
  tcs := st.chan.tcs
  scs := st.chan.scs
  lif := st.chan.lif
  launch := st.chan.launch

/-- CTRKParser._check_lap_crossing: no-op without a finish line; first call
with both previous coordinates still zero only seeds them; otherwise test
the segment from the previous to the current position, and on a crossing
increment the lap and reset the fuel accumulator and fuel channel.  The
previous position is updated on every tested call. -/
def checkLapCrossing (st : PState) (lat lng : ℚ) : PState × Bool :=
  match st.finishLine with
  | none => (st, false)
  | some fl =>
    if st.prevLat = 0 ∧ st.prevLng = 0 then
      ({ st with prevLat := lat, prevLng := lng }, false)
    else
      let crossed := fl.crosses_line st.prevLat st.prevLng lat lng
      let st := { st with prevLat := lat, prevLng := lng }
      if crossed then
        ({ st with currentLap := st.currentLap + 1, fuelAcc := 0, chan := { st.chan with fuel := 0 } }, true)
      else
        (st, false)

/-- One framed record of the data section: type, 10 timestamp bytes, and the
payload after the 14-byte header. -/
structure Rec where
  rtype : Nat
  ts : List Nat
  payload : List Nat
  deriving Repr, DecidableEq

/-- The GetTimeDataEx timestamp step (lines at the top of the record loop):
if there is no previous timestamp or the 10 bytes differ, recompute — either
incrementally from the millis field when bytes 2..10 match (adding 1000 on a
millis rollover) or fully via _get_time_data — and remember the new previous
timestamp and epoch; identical bytes leave everything unchanged. -/
def timestampUpdate (tz : Int) (st : PState) (r : Rec) : Option PState :=
  if st.prevTs = none ∨ st.prevTs ≠ some r.ts then
    (match st.prevTs with
     | none => getTimeData tz r.ts
     | some p =>
       if r.ts.drop 2 = p.drop 2 then do
         let c0 ← r.ts.get? 0
         let c1 ← r.ts.get? 1
         let p0 ← p.get? 0
         let p1 ← p.get? 1
         let currMillis := c0 ||| (c1 <<< 8)
         let prevMillis := p0 ||| (p1 <<< 8)
         let e : Int := currMillis + (st.prevEpoch - prevMillis)
         some (if currMillis < prevMillis then e + 1000 else e)
       else
         getTimeData tz r.ts).map
      fun e => { st with curEpoch := e, prevEpoch := e, prevTs := some r.ts }
  else
    some st

/-- CAN dispatch of the record loop: 0x023E is handled only with at least 4
data bytes (feeding the fuel accumulator); the identifiers of CAN_HANDLERS
dispatch unconditionally; unknown identifiers are ignored. -/
def canDispatch (canId : Nat) (canData : List Nat) (chan : ChanState)
    (fuelAcc : Nat) : Option (ChanState × Nat) :=
  if canId = 0x023E ∧ canData.length ≥ 4 then
    parse_can_0x023e canData chan fuelAcc
  else if canId = 0x0209 then (parse_can_0x0209 canData chan).map (·, fuelAcc)
  else if canId = 0x0215 then (parse_can_0x0215 canData chan).map (·, fuelAcc)
  else if canId = 0x0250 then (parse_can_0x0250 canData chan).map (·, fuelAcc)
  else if canId = 0x0258 then (parse_can_0x0258 canData chan).map (·, fuelAcc)
  else if canId = 0x0260 then (parse_can_0x0260 canData chan).map (·, fuelAcc)
  else if canId = 0x0264 then (parse_can_0x0264 canData chan).map (·, fuelAcc)
  else if canId = 0x0268 then (parse_can_0x0268 canData chan).map (·, fuelAcc)
  else some (chan, fuelAcc)

/-- Code point list for the $GPRMC marker. -/
def gprmcMarker : List Nat := [36, 71, 80, 82, 77, 67]

/-- Type-2 branch of the record loop: decode the sentence; for a $GPRMC that
passes the checksum, update the position on a successful field parse, and on
the first such sentence flip the GPS gate and emit the initial sample
timestamped with the current emission clock. -/
def gpsUpdate (st : PState) (payload : List Nat) : PState :=
  let s := decodeSentence payload
  if gprmcMarker.isPrefixOf s then
    if validateNmeaChecksum s then
      let st :=
        match parse_gprmc_sentence s with
        | some g => { st with curLat := g.1, curLon := g.2.1, curSpeed := g.2.2 }
        | none => st
      if st.hasGprmc then
        st
      else
        let st := { st with hasGprmc := true }
        let st := (checkLapCrossing st st.curLat st.curLon).1
        { st with samples := st.samples ++
            [createRecord st (st.lastEmit.getD 0) st.curLat st.curLon st.curSpeed] }
    else
      st
  else
    st

/-- Payload processing of the record loop: CAN records with at least 5
payload bytes (2-byte identifier, 2 padding bytes, DLC byte, then data),
NMEA records with more than 6 payload bytes, and type-5 lap markers which
re-align the emission clock; everything else is skipped. -/
def payloadUpdate (st : PState) (r : Rec) : Option PState :=
  if r.rtype = 1 ∧ r.payload.length ≥ 5 then
    let canId := (r.payload.getD 0 0) ||| ((r.payload.getD 1 0) <<< 8)
    (canDispatch canId (r.payload.drop 5) st.chan st.fuelAcc).map
      fun p => { st with chan := p.1, fuelAcc := p.2 }
  else if r.rtype = 2 ∧ r.payload.length > 6 then
    some (gpsUpdate st r.payload)
  else if r.rtype = 5 then
    some { st with lastEmit := some st.curEpoch }
  else
    some st

/-- Emission check at the end of each loop iteration: with the GPS gate open
and at least 100 ms since the last emission, run the lap check and emit a
sample at the current epoch.  lastEmit is always set at this point (it is
initialized at the first record), so the none case never fires. -/
def emissionCheck (st : PState) : PState :=
  if st.hasGprmc && (match st.lastEmit with
      | some l => decide (st.curEpoch - l ≥ 100)
      | none => false) then
    let st := (checkLapCrossing st st.curLat st.curLon).1
    let st := { st with samples := st.samples ++
      [createRecord st st.curEpoch st.curLat st.curLon st.curSpeed] }
    { st with lastEmit := some st.curEpoch }
  else
    st

/-- One full iteration of the record loop: timestamp reconstruction,
emission-clock initialization at the first record, payload processing, then
the emission check.  none models an uncaught exception aborting parse(). -/
def stepRec (tz : Int) (st : PState) (r : Rec) : Option PState :=
  (timestampUpdate tz st r).bind fun st1 =>
    let st2 := if st1.lastEmit = none then { st1 with lastEmit := some st1.curEpoch } else st1
    (payloadUpdate st2 r).map emissionCheck

/-- The record loop folded over a list of framed records. -/
def processRecs (tz : Int) (st : PState) : List Rec → Option PState
  | [] => some st
  | r :: rs => (stepRec tz st r).bind fun st' => processRecs tz st' rs

/-- Final record emission after the loop: with the gate open and an
initialized emission clock, run the lap check once more and emit a closing
sample at the current epoch. -/
def finalFlush (st : PState) : PState :=
  if st.hasGprmc ∧ st.lastEmit ≠ none then
    let st := (checkLapCrossing st st.curLat st.curLon).1
    { st with samples := st.samples ++
      [createRecord st st.curEpoch st.curLat st.curLon st.curSpeed] }
  else
    st

/-- CTRKParser._parse_data_section at the level of framed records: fold the
loop from the initial state and apply the final emission; the sample list is
the parser's output.  none models parse() aborting with an exception. -/
def parseDataSection (tz : Int) (fl : Option FinishLine) (recs : List Rec) :
    Option (List Sample) :=
  (processRecs tz (initPState fl) recs).map fun st => (finalFlush st).samples

/-- Auxiliary specification predicate (not from the source): along a run of
the record loop, every step leaves the reconstructed epoch non-decreasing. -/
def stepsMono (tz : Int) : PState → List Rec → Bool
  | _, [] => true
  | st, r :: rs =>
    match stepRec tz st r with
    | none => true
    | some st' => decide (st.curEpoch ≤ st'.curEpoch) && stepsMono tz st' rs

/-- Timestamp bytes for 2023-06-01 00:00:00.000 (weekday byte 4 unused). -/
def tsA : List Nat := [0, 0, 0, 0, 0, 4, 1, 6, 231, 7]

/-- Same second as tsA with millis = 500. -/
def tsB : List Nat := [244, 1, 0, 0, 0, 4, 1, 6, 231, 7]

/-- Like tsA but with month byte 0: outside datetime's valid range. -/
def tsBadMonth : List Nat := [0, 0, 0, 0, 0, 4, 1, 0, 231, 7]

/-- Byte values of a checksum-valid GPRMC sentence with no fields (so in
particular without active status): it opens the GPS gate but carries no
position. -/
def gprmcVoid : List Nat := [36, 71, 80, 82, 77, 67, 42, 52, 66]

/-- Stream consisting of a single checksum-valid GPRMC record. -/
def recsOneGprmc : List Rec := [⟨2, tsA, gprmcVoid⟩]

/-- Stream with a type-3 record, then a type-5 lap marker 500 ms later, then
the first GPRMC at the marker's timestamp. -/
def recsMarkerThenGprmc : List Rec := [⟨3, tsA, []⟩, ⟨5, tsB, []⟩, ⟨2, tsB, gprmcVoid⟩]

/-- Stream with one type-1 CAN record for identifier 0x0258 whose DLC data
is empty (payload carries only identifier, padding and DLC byte). -/
def recsShort0258 : List Rec := [⟨1, tsA, [88, 2, 0, 0, 8]⟩]

/-- Parser state mid-stream: previous timestamp tsA already reconstructed. -/
def c2St : PState :=
  { initPState none with
      prevTs := some tsA
      prevEpoch := 1685577600000
      curEpoch := 1685577600000 }

/-- Record carrying tsB (same second as tsA, millis 500). -/
def c2Rec : Rec := ⟨3, tsB, []⟩

/-- Finish line P1 = (0, 0), P2 = (0, 1) from the spec's lap scenario. -/
def c6Fl : FinishLine := ⟨0, 0, 0, 1⟩

/-- State with the c6Fl finish line and a previous position (-1, 1/2): the
segment to (1, 1/2) crosses the line at t = 1/2. -/
def c7St : PState :=
  { initPState (some c6Fl) with prevLat := -1, prevLng := 1/2 }

/-- Mid-stream state with the GPS gate still closed and the emission clock
initialized. -/
def c4St : PState :=
  { initPState none with
      prevTs := some tsA
      prevEpoch := 1685577600000
      curEpoch := 1685577600000
      lastEmit := some 1685577600000 }

/-- Type-1 record for identifier 0x023E with only 2 DLC data bytes. -/
def c4Rec023e : Rec := ⟨1, tsA, [62, 2, 0, 0, 8, 9, 9]⟩

/-- Type-1 record for identifier 0x0258 with empty DLC data. -/
def c4Rec0258 : Rec := ⟨1, tsA, [88, 2, 0, 0, 8]⟩

/-- Mid-stream state before the first GPRMC: gate closed, no samples,
emission clock previously re-aligned to 1685577600123. -/
def c5St : PState :=
  { initPState none with
      prevTs := some tsA
      prevEpoch := 1685577600000
      curEpoch := 1685577600000
      lastEmit := some 1685577600123 }

/-- GPRMC record at the timestamp already seen. -/
def c5Rec : Rec := ⟨2, tsA, gprmcVoid⟩

/-- Record whose calendar fields are invalid (month 0). -/
def c10Rec : Rec := ⟨3, tsBadMonth, []⟩

/-- Auxiliary specification predicate (not from the source): the lean channel
and every emitted sample carry a lean value that is a multiple of 100 and is
either the initial 0 or at least 9000. -/
def LeanInv (st : PState) : Prop :=
  (st.chan.lean_raw % 100 = 0 ∧ (st.chan.lean_raw = 0 ∨ 9000 ≤ st.chan.lean_raw)) ∧
  ∀ sm ∈ st.samples, sm.lean_raw % 100 = 0 ∧ (sm.lean_raw = 0 ∨ 9000 ≤ sm.lean_raw)

/-- Auxiliary specification predicate (not from the source): emitted sample
timestamps are non-decreasing, bounded by the current epoch, the emission
clock is bounded by the current epoch, and no samples exist while the GPS
gate is closed. -/
def TimeInv (st : PState) : Prop :=
  List.Chain' (· ≤ ·) (st.samples.map fun sm => sm.time_ms) ∧
  (∀ sm ∈ st.samples, sm.time_ms ≤ st.curEpoch) ∧
  (∀ l, st.lastEmit = some l → l ≤ st.curEpoch) ∧
  (st.hasGprmc = false → st.samples = [])

end CTRK

set_option maxRecDepth 4096 in
/-- Claim C1: for a CAN 0x0258 payload with at least 8 data bytes the handler
stores lean and lean_signed computed from
sum = ((((b0 << 4) | (b2 & 0x0F)) << 8) + (((b1 & 0x0F) << 4) | (b3 >> 4))) & 0xFFFF
with deviation 9000 - sum (sum < 9000) or (sum - 9000) & 0xFFFF, a deadband of
499 mapping to 9000/9000, otherwise lean = (9000 + dev_trunc) & 0xFFFF and
lean_signed = 9000 ∓ dev_trunc with dev_trunc = deviation - deviation % 100;
and an input with sum = 12345 yields lean = 12300 and lean_signed = 12300. -/
theorem c1_lean_decoding (data : List Nat) (st : CTRK.ChanState)
    (h : 8 ≤ data.length) :
    (CTRK.parse_can_0x0258 data st =
      let b0 := data.getD 0 0
      let b1 := data.getD 1 0
      let b2 := data.getD 2 0
      let b3 := data.getD 3 0
      let sum := ((((b0 <<< 4) ||| (b2 &&& 0x0F)) <<< 8) +
        (((b1 &&& 0x0F) <<< 4) ||| (b3 >>> 4))) &&& 0xFFFF
      let deviation := if sum < 9000 then 9000 - sum else (sum - 9000) &&& 0xFFFF
      let devTrunc := deviation - deviation % 100
      some { st with
        lean_raw := if deviation ≤ 499 then 9000 else (9000 + devTrunc) &&& 0xFFFF
        lean_signed := if deviation ≤ 499 then 9000
          else if sum < 9000 then 9000 - devTrunc else 9000 + devTrunc
        pitch := ((data.getD 6 0) <<< 8) ||| data.getD 7 0 }) ∧
    CTRK.parse_can_0x0258 [3, 3, 0, 144, 0, 0, 0, 0] {} =
      some { lean_raw := 12300, lean_signed := 12300, pitch := 0 } := by
  constructor
  · match data, h with
    | b0 :: b1 :: b2 :: b3 :: b4 :: b5 :: b6 :: b7 :: rest, _ =>
      simp only [CTRK.parse_can_0x0258, List.get?_cons_zero, List.get?_cons_succ,
        List.getD_cons_zero, List.getD_cons_succ, Option.bind_eq_bind, Option.some_bind]
      split_ifs <;> rfl
  · decide

/-- The 16-bit mask written 0xFFFF in the source is reduction mod 2^16. -/
theorem and_65535_eq_mod (x : Nat) : x &&& 65535 = x % 65536 := by
  have h : (65535 : Nat) = 2 ^ 16 - 1 := by norm_num
  rw [h, Nat.and_pow_two_sub_one_eq_mod]

/-- Claim C2: when a previous timestamp exists, the full 10 bytes differ but
bytes 2..10 agree (so only the millis field differs), the reconstructed epoch
is curr_millis + (prev_epoch_ms - prev_millis), with 1000 added when
curr_millis < prev_millis; and a record whose entire timestamp field equals
the previous one triggers no recomputation and leaves the state unchanged. -/
theorem c2_timestamp_increment (tz : Int) (st : CTRK.PState) (r : CTRK.Rec) :
    (∀ p, st.prevTs = some p → r.ts ≠ p → r.ts.drop 2 = p.drop 2 →
      2 ≤ r.ts.length → 2 ≤ p.length →
      CTRK.timestampUpdate tz st r =
        (let currMillis := r.ts.getD 0 0 ||| ((r.ts.getD 1 0) <<< 8)
         let prevMillis := p.getD 0 0 ||| ((p.getD 1 0) <<< 8)
         let e : Int := currMillis + (st.prevEpoch - prevMillis) +
           (if currMillis < prevMillis then 1000 else 0)
         some { st with curEpoch := e, prevEpoch := e, prevTs := some r.ts })) ∧
    (st.prevTs = some r.ts → CTRK.timestampUpdate tz st r = some st) := by
  constructor
  · intro p hp hne hdrop hlr hlp
    have hcond : st.prevTs = none ∨ st.prevTs ≠ some r.ts := by
      right
      rw [hp]
      simp only [ne_eq, Option.some.injEq]
      intro h
      exact hne h.symm
    unfold CTRK.timestampUpdate
    rw [if_pos hcond, hp]
    match r, hlr with
    | ⟨rt, c0 :: c1 :: crest, pl⟩, _ =>
      match p, hlp with
      | p0 :: p1 :: prest, _ =>
        simp only [hdrop, if_pos, List.get?_cons_zero, List.get?_cons_succ,
          List.getD_cons_zero, List.getD_cons_succ, Option.bind_eq_bind,
          Option.some_bind, Option.map_some']
        split_ifs with hlt <;> simp only [Option.some.injEq] <;> congr 1 <;> omega
  · intro h
    unfold CTRK.timestampUpdate
    rw [if_neg]
    simp [h]

/-- Witness for C2 at concrete inputs: millis 0 → 500 within the same second
advances the epoch by 500 ms, and an identical timestamp changes nothing. -/
theorem c2_timestamp_increment_witness :
    CTRK.timestampUpdate 0 CTRK.c2St CTRK.c2Rec =
      some { CTRK.c2St with
        curEpoch := 1685577600500
        prevEpoch := 1685577600500
        prevTs := some CTRK.tsB } ∧
    CTRK.timestampUpdate 0 CTRK.c2St ⟨3, CTRK.tsA, []⟩ = some CTRK.c2St := by
  constructor
  · have h := (c2_timestamp_increment 0 CTRK.c2St CTRK.c2Rec).1 CTRK.tsA rfl
      (by decide) (by decide) (by decide) (by decide)
    rw [h]
    decide
  · exact (c2_timestamp_increment 0 CTRK.c2St ⟨3, CTRK.tsA, []⟩).2 rfl

/-- Claim C3 (code bug): the full epoch recomputation routes the calendar
fields through the host's local timezone (naive datetime.timestamp()), not
UTC as documented: for 2023-06-01 00:00:00.000 the UTC conversion (offset 0)
gives 1685577600000 ms, while a host at UTC offset +3600 s gives an epoch
3,600,000 ms lower. -/
theorem c3_civil_epoch_conversion :
    CTRK.getTimeData 0 CTRK.tsA = some 1685577600000 ∧
    (CTRK.timestampUpdate 0 (CTRK.initPState none) ⟨3, CTRK.tsA, []⟩).map
      (fun st => st.curEpoch) = some 1685577600000 ∧
    CTRK.getTimeData 3600 CTRK.tsA = some 1685574000000 ∧
    CTRK.getTimeData 3600 CTRK.tsA ≠ CTRK.getTimeData 0 CTRK.tsA := by
  refine ⟨by decide, by decide, by decide, by decide⟩

/-- Claim C6: crosses_line counts a crossing iff the side-of-line values of
the endpoints have strictly opposite signs, the denominator has magnitude at
least 1e-12, and the parametric parameter t along the finish line lies in
[0, 1]; with P1 = (0, 0) and P2 = (0, 1) the trajectory from (-1, 2) to
(1, 2) changes side yet has t = 2 and is not a crossing. -/
theorem c6_crossing_iff :
    (∀ (f : CTRK.FinishLine) (lat1 lng1 lat2 lng2 : ℚ),
      f.crosses_line lat1 lng1 lat2 lng2 = true ↔
        (f.side_of_line lat1 lng1 * f.side_of_line lat2 lng2 < 0 ∧
          1 / 1000000000000 ≤
            |(f.p2_lng - f.p1_lng) * (lat2 - lat1) - (f.p2_lat - f.p1_lat) * (lng2 - lng1)| ∧
          0 ≤ ((lng1 - f.p1_lng) * (lat2 - lat1) - (lat1 - f.p1_lat) * (lng2 - lng1)) /
            ((f.p2_lng - f.p1_lng) * (lat2 - lat1) - (f.p2_lat - f.p1_lat) * (lng2 - lng1)) ∧
          ((lng1 - f.p1_lng) * (lat2 - lat1) - (lat1 - f.p1_lat) * (lng2 - lng1)) /
            ((f.p2_lng - f.p1_lng) * (lat2 - lat1) - (f.p2_lat - f.p1_lat) * (lng2 - lng1)) ≤ 1)) ∧
    CTRK.c6Fl.side_of_line (-1) 2 * CTRK.c6Fl.side_of_line 1 2 < 0 ∧
    CTRK.c6Fl.crosses_line (-1) 2 1 2 = false := by
  refine ⟨fun f lat1 lng1 lat2 lng2 => ?_, ?_, ?_⟩
  case refine_2 =>
    norm_num [CTRK.FinishLine.side_of_line, CTRK.c6Fl]
  case refine_3 =>
    norm_num [CTRK.FinishLine.crosses_line, CTRK.FinishLine.side_of_line,
      CTRK.c6Fl, decide_eq_false_iff_not]
  simp only [CTRK.FinishLine.crosses_line, CTRK.FinishLine.side_of_line]
  split_ifs with h1 h2
  · simp only [Bool.false_eq_true, false_iff]
    rintro ⟨hlt, -, -, -⟩
    exact absurd hlt (not_lt.2 h1)
  · simp only [Bool.false_eq_true, false_iff]
    rintro ⟨-, hge, -, -⟩
    exact absurd h2 (not_lt.2 hge)
  · rw [decide_eq_true_eq]
    constructor
    · rintro ⟨h3, h4⟩
      exact ⟨not_le.1 h1, not_lt.1 h2, h3, h4⟩
    · rintro ⟨-, -, h3, h4⟩
      exact ⟨h3, h4⟩

/-- Claim C7: with a finish line configured, every lap-crossing check stores
the current position as the new previous position; on a reported crossing
the lap counter increments by exactly one, the fuel accumulator and fuel
channel reset to zero, and a sample created immediately afterwards (before
any new 0x023E frame) carries fuel 0. -/
theorem c7_lap_crossing_effects (st : CTRK.PState) (lat lng : ℚ)
    (fl : CTRK.FinishLine) (h : st.finishLine = some fl) (t : Int) (sp : ℚ) :
    (CTRK.checkLapCrossing st lat lng).1.prevLat = lat ∧
    (CTRK.checkLapCrossing st lat lng).1.prevLng = lng ∧
    ((CTRK.checkLapCrossing st lat lng).2 = true →
      (CTRK.checkLapCrossing st lat lng).1.currentLap = st.currentLap + 1 ∧
      (CTRK.checkLapCrossing st lat lng).1.fuelAcc = 0 ∧
      (CTRK.checkLapCrossing st lat lng).1.chan.fuel = 0 ∧
      (CTRK.createRecord (CTRK.checkLapCrossing st lat lng).1 t lat lng sp).fuel = 0) := by
  unfold CTRK.checkLapCrossing
  rw [h]
  dsimp only
  split_ifs with h1 h2
  · exact ⟨rfl, rfl, by simp⟩
  · exact ⟨rfl, rfl, fun _ => ⟨rfl, rfl, rfl, rfl⟩⟩
  · exact ⟨rfl, rfl, by simp⟩

/-- Witness for C7: concrete crossing of the line P1 = (0,0), P2 = (0,1)
from previous position (-1, 1/2) to (1, 1/2). -/
theorem c7_lap_crossing_effects_witness :
    (CTRK.checkLapCrossing CTRK.c7St 1 (1/2)).2 = true ∧
    (CTRK.checkLapCrossing CTRK.c7St 1 (1/2)).1.currentLap = 2 ∧
    (CTRK.checkLapCrossing CTRK.c7St 1 (1/2)).1.fuelAcc = 0 ∧
    (CTRK.checkLapCrossing CTRK.c7St 1 (1/2)).1.chan.fuel = 0 ∧
    (CTRK.createRecord (CTRK.checkLapCrossing CTRK.c7St 1 (1/2)).1 0 1 (1/2) 0).fuel = 0 := by
  have hcross : (CTRK.checkLapCrossing CTRK.c7St 1 (1/2)).2 = true := by
    norm_num [CTRK.checkLapCrossing, CTRK.c7St, CTRK.initPState, CTRK.c6Fl,
      CTRK.FinishLine.crosses_line, CTRK.FinishLine.side_of_line, decide_eq_true_eq]
  have h := (c7_lap_crossing_effects CTRK.c7St 1 (1/2) CTRK.c6Fl rfl 0 0).2.2 hcross
  refine ⟨hcross, ?_, h.2.1, h.2.2.1, h.2.2.2⟩
  rw [h.1]
  decide

/-- timestampUpdate changes only curEpoch, prevEpoch and prevTs. -/
theorem timestampUpdate_shape (tz : Int) (st : CTRK.PState) (r : CTRK.Rec)
    (st1 : CTRK.PState) (h : CTRK.timestampUpdate tz st r = some st1) :
    st1 = { st with curEpoch := st1.curEpoch, prevEpoch := st1.prevEpoch, prevTs := st1.prevTs } := by
  unfold CTRK.timestampUpdate at h
  split at h
  · rcases Option.map_eq_some'.1 h with ⟨e, -, rfl⟩
    rfl
  · cases h
    rfl

/-- timestampUpdate with an unchanged timestamp field is the identity. -/
theorem timestampUpdate_of_same (tz : Int) (st : CTRK.PState) (r : CTRK.Rec)
    (h : st.prevTs = some r.ts) : CTRK.timestampUpdate tz st r = some st := by
  unfold CTRK.timestampUpdate
  rw [if_neg]
  simp [h]

/-- checkLapCrossing only touches the previous position, the lap counter,
the fuel accumulator and the fuel channel. -/
theorem checkLapCrossing_shape (st : CTRK.PState) (lat lng : ℚ) :
    ∃ pl pn cl fa fu,
      (CTRK.checkLapCrossing st lat lng).1 =
        { st with prevLat := pl, prevLng := pn, currentLap := cl, fuelAcc := fa, chan := { st.chan with fuel := fu } } := by
  unfold CTRK.checkLapCrossing
  split
  · exact ⟨st.prevLat, st.prevLng, st.currentLap, st.fuelAcc, st.chan.fuel, rfl⟩
  · rename_i fl hfl
    by_cases h1 : st.prevLat = 0 ∧ st.prevLng = 0
    · rw [if_pos h1]
      exact ⟨lat, lng, st.currentLap, st.fuelAcc, st.chan.fuel, rfl⟩
    · rw [if_neg h1]
      by_cases h2 : fl.crosses_line st.prevLat st.prevLng lat lng = true
      · simp only [h2, if_true]
        exact ⟨lat, lng, st.currentLap + 1, 0, 0, rfl⟩
      · simp only [h2, if_false, Bool.false_eq_true]
        exact ⟨lat, lng, st.currentLap, st.fuelAcc, st.chan.fuel, rfl⟩

/-- The engine handler leaves the lean channel untouched. -/
theorem parse_can_0x0209_lean (d : List Nat) (chan chan' : CTRK.ChanState)
    (h : CTRK.parse_can_0x0209 d chan = some chan') : chan'.lean_raw = chan.lean_raw := by
  unfold CTRK.parse_can_0x0209 at h
  simp only [Option.bind_eq_bind, Option.bind_eq_some] at h
  obtain ⟨b0, -, b1, -, b4, -, h⟩ := h
  split at h <;> cases h <;> rfl

/-- The throttle handler leaves the lean channel untouched. -/
theorem parse_can_0x0215_lean (d : List Nat) (chan chan' : CTRK.ChanState)
    (h : CTRK.parse_can_0x0215 d chan = some chan') : chan'.lean_raw = chan.lean_raw := by
  unfold CTRK.parse_can_0x0215 at h
  simp only [Option.bind_eq_bind, Option.bind_eq_some] at h
  obtain ⟨b0, -, b1, -, b2, -, b3, -, b6, -, b7, -, h⟩ := h
  cases h
  rfl

/-- The temperature-and-fuel handler leaves the lean channel untouched. -/
theorem parse_can_0x023e_lean (d : List Nat) (chan : CTRK.ChanState) (acc : Nat)
    (chan' : CTRK.ChanState) (acc' : Nat)
    (h : CTRK.parse_can_0x023e d chan acc = some (chan', acc')) :
    chan'.lean_raw = chan.lean_raw := by
  unfold CTRK.parse_can_0x023e at h
  simp only [Option.bind_eq_bind, Option.bind_eq_some] at h
  obtain ⟨b0, -, b1, -, b2, -, b3, -, h⟩ := h
  cases h
  rfl

/-- The acceleration handler leaves the lean channel untouched. -/
theorem parse_can_0x0250_lean (d : List Nat) (chan chan' : CTRK.ChanState)
    (h : CTRK.parse_can_0x0250 d chan = some chan') : chan'.lean_raw = chan.lean_raw := by
  unfold CTRK.parse_can_0x0250 at h
  simp only [Option.bind_eq_bind, Option.bind_eq_some] at h
  obtain ⟨b0, -, b1, -, b2, -, b3, -, h⟩ := h
  cases h
  rfl

/-- The brake handler leaves the lean channel untouched. -/
theorem parse_can_0x0260_lean (d : List Nat) (chan chan' : CTRK.ChanState)
    (h : CTRK.parse_can_0x0260 d chan = some chan') : chan'.lean_raw = chan.lean_raw := by
  unfold CTRK.parse_can_0x0260 at h
  simp only [Option.bind_eq_bind, Option.bind_eq_some] at h
  obtain ⟨b0, -, b1, -, b2, -, b3, -, h⟩ := h
  cases h
  rfl

/-- The wheel-speed handler leaves the lean channel untouched. -/
theorem parse_can_0x0264_lean (d : List Nat) (chan chan' : CTRK.ChanState)
    (h : CTRK.parse_can_0x0264 d chan = some chan') : chan'.lean_raw = chan.lean_raw := by
  unfold CTRK.parse_can_0x0264 at h
  simp only [Option.bind_eq_bind, Option.bind_eq_some] at h
  obtain ⟨b0, -, b1, -, b2, -, b3, -, h⟩ := h
  cases h
  rfl

/-- The ABS handler leaves the lean channel untouched. -/
theorem parse_can_0x0268_lean (d : List Nat) (chan chan' : CTRK.ChanState)
    (h : CTRK.parse_can_0x0268 d chan = some chan') : chan'.lean_raw = chan.lean_raw := by
  unfold CTRK.parse_can_0x0268 at h
  simp only [Option.bind_eq_bind, Option.bind_eq_some] at h
  obtain ⟨b4, -, h⟩ := h
  cases h
  rfl

/-- A successful IMU handler always stores a lean value that is a multiple
of 100 and at least 9000: the deadband yields exactly 9000, and otherwise
9000 + dev_trunc stays below 2^16, so the defensive mask is the identity. -/
theorem parse_can_0x0258_lean (d : List Nat) (chan chan' : CTRK.ChanState)
    (h : CTRK.parse_can_0x0258 d chan = some chan') :
    chan'.lean_raw % 100 = 0 ∧ 9000 ≤ chan'.lean_raw := by
  unfold CTRK.parse_can_0x0258 at h
  simp only [Option.bind_eq_bind, Option.bind_eq_some] at h
  obtain ⟨b0, -, b1, -, b2, -, b3, -, b6, -, b7, -, h⟩ := h
  cases h
  dsimp only
  have hS := @Nat.and_le_right ((b0 <<< 4 ||| b2 &&& 0x0f) <<< 8 + ((b1 &&& 0x0f) <<< 4 ||| b3 >>> 4)) 65535
  generalize hSdef : ((b0 <<< 4 ||| b2 &&& 0x0f) <<< 8 + ((b1 &&& 0x0f) <<< 4 ||| b3 >>> 4)) &&& 65535 = S at hS ⊢
  split_ifs with h1 h2
  · exact ⟨by norm_num, by norm_num⟩
  · dsimp only
    have hlt : 9000 + (9000 - S - (9000 - S) % 100) < 65536 := by omega
    rw [and_65535_eq_mod, Nat.mod_eq_of_lt hlt]
    omega
  · exact ⟨by norm_num, by norm_num⟩
  · dsimp only
    have hlt1 : S - 9000 < 65536 := by omega
    rw [and_65535_eq_mod (S - 9000), Nat.mod_eq_of_lt hlt1]
    have hlt2 : 9000 + (S - 9000 - (S - 9000) % 100) < 65536 := by omega
    rw [and_65535_eq_mod, Nat.mod_eq_of_lt hlt2]
    omega

/-- Unfolding a handler result mapped into the dispatch pair. -/
theorem map_pair_eq_some (x : Option CTRK.ChanState) (acc : Nat)
    (chan' : CTRK.ChanState) (acc' : Nat)
    (h : x.map (fun c => (c, acc)) = some (chan', acc')) : x = some chan' := by
  cases x with
  | none => simp at h
  | some c =>
    simp only [Option.map_some', Option.some.injEq, Prod.mk.injEq] at h
    rw [h.1]

/-- Any successful CAN dispatch either preserves the lean channel or stores
a multiple of 100 that is at least 9000 (the 0x0258 handler). -/
theorem canDispatch_lean_raw (canId : Nat) (d : List Nat) (chan : CTRK.ChanState)
    (acc : Nat) (chan' : CTRK.ChanState) (acc' : Nat)
    (h : CTRK.canDispatch canId d chan acc = some (chan', acc')) :
    chan'.lean_raw = chan.lean_raw ∨
      (chan'.lean_raw % 100 = 0 ∧ 9000 ≤ chan'.lean_raw) := by
  unfold CTRK.canDispatch at h
  split_ifs at h
  · exact Or.inl (parse_can_0x023e_lean d chan acc chan' acc' h)
  · exact Or.inl (parse_can_0x0209_lean d chan chan' (map_pair_eq_some _ _ _ _ h))
  · exact Or.inl (parse_can_0x0215_lean d chan chan' (map_pair_eq_some _ _ _ _ h))
  · exact Or.inl (parse_can_0x0250_lean d chan chan' (map_pair_eq_some _ _ _ _ h))
  · exact Or.inr (parse_can_0x0258_lean d chan chan' (map_pair_eq_some _ _ _ _ h))
  · exact Or.inl (parse_can_0x0260_lean d chan chan' (map_pair_eq_some _ _ _ _ h))
  · exact Or.inl (parse_can_0x0264_lean d chan chan' (map_pair_eq_some _ _ _ _ h))
  · exact Or.inl (parse_can_0x0268_lean d chan chan' (map_pair_eq_some _ _ _ _ h))
  · cases h
    exact Or.inl rfl

/-- Structural facts about the type-2 branch: the epoch, emission clock and
lean channel are untouched; the gate never closes; with the gate open no
sample is appended; and any appended sample is a single one stamped with the
current emission clock and carrying the current lean value, appended exactly
when the gate flips. -/
theorem gpsUpdate_facts (st : CTRK.PState) (payload : List Nat) :
    (CTRK.gpsUpdate st payload).curEpoch = st.curEpoch ∧
    (CTRK.gpsUpdate st payload).lastEmit = st.lastEmit ∧
    (CTRK.gpsUpdate st payload).prevTs = st.prevTs ∧
    (CTRK.gpsUpdate st payload).chan.lean_raw = st.chan.lean_raw ∧
    (st.hasGprmc = true → (CTRK.gpsUpdate st payload).hasGprmc = true ∧
      (CTRK.gpsUpdate st payload).samples = st.samples) ∧
    ((CTRK.gpsUpdate st payload).hasGprmc = st.hasGprmc ∨
      (CTRK.gpsUpdate st payload).hasGprmc = true) ∧
    ((CTRK.gpsUpdate st payload).samples = st.samples ∨
      (st.hasGprmc = false ∧ (CTRK.gpsUpdate st payload).hasGprmc = true ∧
        ∃ sm, (CTRK.gpsUpdate st payload).samples = st.samples ++ [sm] ∧
          sm.time_ms = st.lastEmit.getD 0 ∧ sm.lean_raw = st.chan.lean_raw)) := by
  unfold CTRK.gpsUpdate
  by_cases hpre : CTRK.gprmcMarker.isPrefixOf (CTRK.decodeSentence payload) = true
  case neg => simp [hpre]
  case pos =>
  by_cases hck : CTRK.validateNmeaChecksum (CTRK.decodeSentence payload) = true
  case neg => simp [hpre, hck]
  case pos =>
  simp only [hpre, hck, if_true]
  rcases hp : CTRK.parse_gprmc_sentence (CTRK.decodeSentence payload) with - | g
  all_goals simp only [hp]
  · by_cases hg : st.hasGprmc = true
    · simp [hg]
    · simp only [Bool.not_eq_true] at hg
      simp only [hg, Bool.false_eq_true, if_false]
      obtain ⟨pl, pn, cl, fa, fu, hsh⟩ :=
        checkLapCrossing_shape { st with hasGprmc := true } st.curLat st.curLon
      rw [hsh]
      exact ⟨rfl, rfl, rfl, rfl, fun hcontra => hcontra.elim, Or.inr rfl,
        Or.inr ⟨trivial, rfl, _, rfl, rfl, rfl⟩⟩
  · by_cases hg : st.hasGprmc = true
    · simp [hg]
    · simp only [Bool.not_eq_true] at hg
      simp only [hg, Bool.false_eq_true, if_false]
      obtain ⟨pl, pn, cl, fa, fu, hsh⟩ :=
        checkLapCrossing_shape
          { st with curLat := g.1, curLon := g.2.1, curSpeed := g.2.2, hasGprmc := true } g.1 g.2.1
      rw [hsh]
      exact ⟨rfl, rfl, rfl, rfl, fun hcontra => hcontra.elim, Or.inr rfl,
        Or.inr ⟨trivial, rfl, _, rfl, rfl, rfl⟩⟩

/-- Structural facts about the emission check: epoch, gate, previous
timestamp and lean channel are untouched, and either nothing happens or
(with the gate open and 100 ms elapsed) exactly one sample stamped with the
current epoch is appended and the emission clock set to it. -/
theorem emissionCheck_facts (st : CTRK.PState) :
    (CTRK.emissionCheck st).curEpoch = st.curEpoch ∧
    (CTRK.emissionCheck st).hasGprmc = st.hasGprmc ∧
    (CTRK.emissionCheck st).prevTs = st.prevTs ∧
    (CTRK.emissionCheck st).chan.lean_raw = st.chan.lean_raw ∧
    (CTRK.emissionCheck st = st ∨
      (st.hasGprmc = true ∧ (CTRK.emissionCheck st).lastEmit = some st.curEpoch ∧
        (∃ l, st.lastEmit = some l ∧ st.curEpoch - l ≥ 100) ∧
        ∃ sm, (CTRK.emissionCheck st).samples = st.samples ++ [sm] ∧
          sm.time_ms = st.curEpoch ∧ sm.lean_raw = st.chan.lean_raw)) := by
  unfold CTRK.emissionCheck
  by_cases hc : (st.hasGprmc && (match st.lastEmit with
      | some l => decide (st.curEpoch - l ≥ 100)
      | none => false)) = true
  · simp only [hc, if_true]
    obtain ⟨pl, pn, cl, fa, fu, hsh⟩ := checkLapCrossing_shape st st.curLat st.curLon
    rw [hsh]
    rw [Bool.and_eq_true] at hc
    have hg : st.hasGprmc = true := hc.1
    have hl := hc.2
    refine ⟨rfl, rfl, rfl, rfl, Or.inr ⟨hg, rfl, ?_, _, rfl, rfl, rfl⟩⟩
    rcases hle : st.lastEmit with - | l
    · simp only [hle] at hl
      cases hl
    · simp only [hle] at hl
      exact ⟨l, rfl, of_decide_eq_true hl⟩
  · simp only [Bool.not_eq_true] at hc
    simp [hc]

/-- Structural facts about payload processing: the epoch and previous
timestamp are untouched, the emission clock is kept or re-aligned to the
current epoch, the lean channel is preserved or given a 0x0258 value, the
open gate stays open with no sample appended, the gate never closes, and a
sample can be appended only at the moment the gate flips, stamped with the
current emission clock. -/
theorem payloadUpdate_facts (st : CTRK.PState) (r : CTRK.Rec) (st3 : CTRK.PState)
    (h : CTRK.payloadUpdate st r = some st3) :
    st3.curEpoch = st.curEpoch ∧
    st3.prevTs = st.prevTs ∧
    (st3.lastEmit = st.lastEmit ∨ st3.lastEmit = some st.curEpoch) ∧
    (st3.chan.lean_raw = st.chan.lean_raw ∨
      (st3.chan.lean_raw % 100 = 0 ∧ 9000 ≤ st3.chan.lean_raw)) ∧
    (st.hasGprmc = true → st3.hasGprmc = true ∧ st3.samples = st.samples) ∧
    (st3.hasGprmc = st.hasGprmc ∨ st3.hasGprmc = true) ∧
    (st3.samples = st.samples ∨
      (st.hasGprmc = false ∧ st3.hasGprmc = true ∧
        ∃ sm, st3.samples = st.samples ++ [sm] ∧ sm.time_ms = st.lastEmit.getD 0 ∧
          sm.lean_raw = st.chan.lean_raw)) := by
  unfold CTRK.payloadUpdate at h
  split_ifs at h
  · -- CAN record
    simp only [] at h
    rcases hcd : CTRK.canDispatch ((r.payload.getD 0 0) ||| ((r.payload.getD 1 0) <<< 8))
        (r.payload.drop 5) st.chan st.fuelAcc with - | p
    · rw [hcd] at h
      simp at h
    · rw [hcd] at h
      simp only [Option.map_some', Option.some.injEq] at h
      subst h
      have hlean := canDispatch_lean_raw _ _ _ _ p.1 p.2 hcd
      exact ⟨rfl, rfl, Or.inl rfl, hlean, fun hg => ⟨hg, rfl⟩, Or.inl rfl, Or.inl rfl⟩
  · -- NMEA record
    cases h
    obtain ⟨h1, h2, h3, h4, h5, h6, h7⟩ := gpsUpdate_facts st r.payload
    exact ⟨h1, h3, Or.inl h2, Or.inl h4, h5, h6, h7⟩
  · -- lap marker
    cases h
    exact ⟨rfl, rfl, Or.inr rfl, Or.inl rfl, fun hg => ⟨hg, rfl⟩, Or.inl rfl, Or.inl rfl⟩
  · cases h
    exact ⟨rfl, rfl, Or.inl rfl, Or.inl rfl, fun hg => ⟨hg, rfl⟩, Or.inl rfl, Or.inl rfl⟩

/-- Structural facts about the final emission: with the gate closed or the
clock never initialized nothing happens; otherwise one sample stamped with
the current epoch is appended. -/
theorem finalFlush_facts (st : CTRK.PState) :
    CTRK.finalFlush st = st ∨
      ∃ sm, (CTRK.finalFlush st).samples = st.samples ++ [sm] ∧
        sm.time_ms = st.curEpoch ∧ sm.lean_raw = st.chan.lean_raw := by
  unfold CTRK.finalFlush
  split_ifs with hcond
  · obtain ⟨pl, pn, cl, fa, fu, hsh⟩ := checkLapCrossing_shape st st.curLat st.curLon
    rw [hsh]
    exact Or.inr ⟨_, rfl, rfl, rfl⟩
  · exact Or.inl rfl

/-- The record-loop step decomposes into its three stages. -/
theorem stepRec_decomp (tz : Int) (st : CTRK.PState) (r : CTRK.Rec) (st' : CTRK.PState)
    (h : CTRK.stepRec tz st r = some st') :
    ∃ st1 st3,
      CTRK.timestampUpdate tz st r = some st1 ∧
      CTRK.payloadUpdate
        (if st1.lastEmit = none then { st1 with lastEmit := some st1.curEpoch } else st1) r =
        some st3 ∧
      st' = CTRK.emissionCheck st3 := by
  unfold CTRK.stepRec at h
  rcases h1 : CTRK.timestampUpdate tz st r with - | st1
  · rw [h1] at h
    simp at h
  · rw [h1] at h
    simp only [Option.some_bind] at h
    rcases h3 : CTRK.payloadUpdate
        (if st1.lastEmit = none then { st1 with lastEmit := some st1.curEpoch } else st1) r
        with - | st3
    · rw [h3] at h
      simp at h
    · rw [h3] at h
      simp only [Option.map_some', Option.some.injEq] at h
      exact ⟨st1, st3, rfl, h3, h.symm⟩

/-- While the GPS gate is closed no samples exist, preserved by each step. -/
theorem stepRec_gate (tz : Int) (st : CTRK.PState) (r : CTRK.Rec) (st' : CTRK.PState)
    (h : CTRK.stepRec tz st r = some st')
    (hinv : st.hasGprmc = false → st.samples = []) :
    st'.hasGprmc = false → st'.samples = [] := by
  intro hg'
  obtain ⟨st1, st3, h1, h3, rfl⟩ := stepRec_decomp tz st r st' h
  have hts := timestampUpdate_shape tz st r st1 h1
  obtain ⟨p1, p2, p3, p4, p5, p6, p7⟩ := payloadUpdate_facts _ r st3 h3
  obtain ⟨e1, e2, e3, e4, e5⟩ := emissionCheck_facts st3
  rw [e2] at hg'
  have h1g : st1.hasGprmc = st.hasGprmc := by rw [hts]
  have h1s : st1.samples = st.samples := by rw [hts]
  have hst2g : (if st1.lastEmit = none then { st1 with lastEmit := some st1.curEpoch } else st1).hasGprmc = st.hasGprmc := by
    split <;> exact h1g
  have hst2s : (if st1.lastEmit = none then { st1 with lastEmit := some st1.curEpoch } else st1).samples = st.samples := by
    split <;> exact h1s
  have hg2 : st.hasGprmc = false := by
    rcases p6 with p6 | p6
    · rw [← hst2g, ← p6]
      exact hg'
    · rw [p6] at hg'
      cases hg'
  have hsamp : st3.samples = st.samples := by
    rcases p7 with p7 | ⟨-, p7b, -⟩
    · rw [p7, hst2s]
    · rw [p7b] at hg'
      cases hg'
  rcases e5 with e5 | ⟨e5a, -⟩
  · rw [e5, hsamp]
    exact hinv hg2
  · rw [e5a] at hg'
    cases hg'

/-- Gate-closed states carry no samples along any successful run. -/
theorem processRecs_gate (tz : Int) : ∀ (recs : List CTRK.Rec) (st st' : CTRK.PState),
    CTRK.processRecs tz st recs = some st' →
    (st.hasGprmc = false → st.samples = []) →
    (st'.hasGprmc = false → st'.samples = []) := by
  intro recs
  induction recs with
  | nil =>
    intro st st' h hi
    cases h
    exact hi
  | cons r rs ih =>
    intro st st' h hi
    unfold CTRK.processRecs at h
    rcases hs : CTRK.stepRec tz st r with - | stm
    · rw [hs] at h
      simp at h
    · rw [hs] at h
      simp only [Option.some_bind] at h
      exact ih stm st' h (stepRec_gate tz st r stm hs hi)

/-- Record processing splits over list concatenation. -/
theorem processRecs_append (tz : Int) (l1 l2 : List CTRK.Rec) (st : CTRK.PState) :
    CTRK.processRecs tz st (l1 ++ l2) =
      (CTRK.processRecs tz st l1).bind fun s => CTRK.processRecs tz s l2 := by
  induction l1 generalizing st with
  | nil => simp [CTRK.processRecs]
  | cons r rs ih =>
    show (CTRK.stepRec tz st r).bind (fun s => CTRK.processRecs tz s (rs ++ l2)) =
      ((CTRK.stepRec tz st r).bind fun s => CTRK.processRecs tz s rs).bind
        fun s => CTRK.processRecs tz s l2
    rcases CTRK.stepRec tz st r with - | stm
    · simp
    · simp only [Option.some_bind]
      exact ih stm

/-- Each step preserves the lean-value invariant. -/
theorem stepRec_leanInv (tz : Int) (st : CTRK.PState) (r : CTRK.Rec) (st' : CTRK.PState)
    (h : CTRK.stepRec tz st r = some st') (hinv : CTRK.LeanInv st) : CTRK.LeanInv st' := by
  unfold CTRK.LeanInv at hinv ⊢
  obtain ⟨st1, st3, h1, h3, hemi⟩ := stepRec_decomp tz st r st' h
  subst hemi
  have hts := timestampUpdate_shape tz st r st1 h1
  have h1c : st1.chan = st.chan := by rw [hts]
  have h1s : st1.samples = st.samples := by rw [hts]
  obtain ⟨p1, p2, p3, p4, p5, p6, p7⟩ := payloadUpdate_facts _ r st3 h3
  obtain ⟨e1, e2, e3, e4, e5⟩ := emissionCheck_facts st3
  have hst2c : (if st1.lastEmit = none then { st1 with lastEmit := some st1.curEpoch } else st1).chan = st.chan := by
    split <;> exact h1c
  have hst2s : (if st1.lastEmit = none then { st1 with lastEmit := some st1.curEpoch } else st1).samples = st.samples := by
    split <;> exact h1s
  have hP3 : st3.chan.lean_raw % 100 = 0 ∧ (st3.chan.lean_raw = 0 ∨ 9000 ≤ st3.chan.lean_raw) := by
    rcases p4 with p4 | p4
    · rw [p4, hst2c]
      exact hinv.1
    · exact ⟨p4.1, Or.inr p4.2⟩
  have hS3 : ∀ sm ∈ st3.samples, sm.lean_raw % 100 = 0 ∧ (sm.lean_raw = 0 ∨ 9000 ≤ sm.lean_raw) := by
    rcases p7 with p7 | ⟨-, -, sm', hp7, -, hlean'⟩
    · rw [p7, hst2s]
      exact hinv.2
    · rw [hp7]
      intro x hx
      rcases List.mem_append.1 hx with hx | hx
      · rw [hst2s] at hx
        exact hinv.2 x hx
      · rcases List.mem_singleton.1 hx with rfl
        rw [hlean', hst2c]
        exact hinv.1
  constructor
  · rw [e4]
    exact hP3
  · rcases e5 with e5 | ⟨-, -, -, sm, he5, -, hlean⟩
    · rw [e5]
      exact hS3
    · rw [he5]
      intro x hx
      rcases List.mem_append.1 hx with hx | hx
      · exact hS3 x hx
      · rcases List.mem_singleton.1 hx with rfl
        rw [hlean]
        exact hP3

/-- The lean-value invariant holds along any successful run. -/
theorem processRecs_leanInv (tz : Int) : ∀ (recs : List CTRK.Rec) (st st' : CTRK.PState),
    CTRK.processRecs tz st recs = some st' → CTRK.LeanInv st → CTRK.LeanInv st' := by
  intro recs
  induction recs with
  | nil =>
    intro st st' h hi
    cases h
    exact hi
  | cons r rs ih =>
    intro st st' h hi
    unfold CTRK.processRecs at h
    rcases hs : CTRK.stepRec tz st r with - | stm
    · rw [hs] at h
      simp at h
    · rw [hs] at h
      simp only [Option.some_bind] at h
      exact ih stm st' h (stepRec_leanInv tz st r stm hs hi)

/-- Appending an upper bound to a non-decreasing list keeps it
non-decreasing. -/
theorem chain_le_snoc (l : List Int) (x : Int) (hc : List.Chain' (· ≤ ·) l)
    (hb : ∀ t ∈ l, t ≤ x) : List.Chain' (· ≤ ·) (l ++ [x]) := by
  rw [List.chain'_append]
  refine ⟨hc, List.chain'_singleton x, ?_⟩
  intro a ha b hb'
  simp only [List.head?_cons, Option.mem_def, Option.some.injEq] at hb'
  subst hb'
  exact hb a (List.mem_of_mem_getLast? ha)

/-- Each step whose reconstructed epoch does not decrease preserves the
timestamp-ordering invariant. -/
theorem stepRec_timeInv (tz : Int) (st : CTRK.PState) (r : CTRK.Rec) (st' : CTRK.PState)
    (h : CTRK.stepRec tz st r = some st') (hmono : st.curEpoch ≤ st'.curEpoch)
    (hinv : CTRK.TimeInv st) : CTRK.TimeInv st' := by
  obtain ⟨hc, hb, hl, hg⟩ := hinv
  obtain ⟨st1, st3, h1, h3, hemi⟩ := stepRec_decomp tz st r st' h
  subst hemi
  have hts := timestampUpdate_shape tz st r st1 h1
  have h1s : st1.samples = st.samples := by rw [hts]
  have h1g : st1.hasGprmc = st.hasGprmc := by rw [hts]
  have h1l : st1.lastEmit = st.lastEmit := by rw [hts]
  obtain ⟨p1, p2, p3, p4, p5, p6, p7⟩ := payloadUpdate_facts _ r st3 h3
  obtain ⟨e1, e2, e3, e4, e5⟩ := emissionCheck_facts st3
  have hE2 : (if st1.lastEmit = none then { st1 with lastEmit := some st1.curEpoch } else st1).curEpoch = st1.curEpoch := by
    split <;> rfl
  have hE3 : st3.curEpoch = st1.curEpoch := by rw [p1, hE2]
  have hmono3 : st.curEpoch ≤ st3.curEpoch := by
    rw [← e1]
    exact hmono
  have hst2s : (if st1.lastEmit = none then { st1 with lastEmit := some st1.curEpoch } else st1).samples = st.samples := by
    split <;> exact h1s
  have hst2g : (if st1.lastEmit = none then { st1 with lastEmit := some st1.curEpoch } else st1).hasGprmc = st.hasGprmc := by
    split <;> exact h1g
  have hst2l : ∀ l, (if st1.lastEmit = none then { st1 with lastEmit := some st1.curEpoch } else st1).lastEmit = some l → l ≤ st3.curEpoch := by
    split
    case isTrue hn =>
      intro l hl'
      cases hl'
      exact hE3.ge
    case isFalse hn =>
      intro l hl'
      rw [h1l] at hl'
      exact le_trans (hl l hl') hmono3
  have hst2ne : (if st1.lastEmit = none then { st1 with lastEmit := some st1.curEpoch } else st1).lastEmit ≠ none := by
    split
    case isTrue hn => exact fun hcon => Option.noConfusion hcon
    case isFalse hn => exact hn
  have hchain3 : List.Chain' (· ≤ ·) (st3.samples.map fun sm => sm.time_ms) ∧
      (∀ sm ∈ st3.samples, sm.time_ms ≤ st3.curEpoch) := by
    rcases p7 with p7 | ⟨hg2, -, sm', hp7, htime', -⟩
    · rw [p7, hst2s]
      exact ⟨hc, fun sm hsm => le_trans (hb sm hsm) hmono3⟩
    · have hgf : st.hasGprmc = false := by
        rw [← hst2g]
        exact hg2
      have hempty : st.samples = [] := hg hgf
      rw [hp7, hst2s, hempty]
      obtain ⟨l2, hl2⟩ := Option.ne_none_iff_exists'.1 hst2ne
      refine ⟨by simp, ?_⟩
      intro sm hsm
      rcases List.mem_singleton.1 (by simpa using hsm) with rfl
      rw [htime', hl2]
      simpa using hst2l l2 hl2
  have hl3 : ∀ l, st3.lastEmit = some l → l ≤ st3.curEpoch := by
    rcases p3 with p3 | p3
    · intro l hl'
      rw [p3] at hl'
      exact hst2l l hl'
    · intro l hl'
      rw [p3] at hl'
      cases hl'
      exact p1.ge
  rcases e5 with e5 | ⟨-, hle', -, sm2, hs', ht2, -⟩
  · have hd := stepRec_gate tz st r _ h hg
    rw [e5] at hd
    rw [e5]
    exact ⟨hchain3.1, hchain3.2, hl3, hd⟩
  · refine ⟨?_, ?_, ?_, stepRec_gate tz st r _ h hg⟩
    · show List.Chain' (· ≤ ·) ((CTRK.emissionCheck st3).samples.map fun sm => sm.time_ms)
      rw [hs', List.map_append]
      simp only [List.map_cons, List.map_nil]
      refine chain_le_snoc _ _ hchain3.1 ?_
      intro t ht
      rcases List.mem_map.1 ht with ⟨sm, hsm, rfl⟩
      rw [ht2]
      exact hchain3.2 sm hsm
    · intro sm hsm
      rw [hs'] at hsm
      have hgoal : sm.time_ms ≤ st3.curEpoch := by
        rcases List.mem_append.1 hsm with hsm | hsm
        · exact hchain3.2 sm hsm
        · rcases List.mem_singleton.1 hsm with rfl
          exact le_of_eq ht2
      rw [e1]
      exact hgoal
    · intro l hl'
      rw [hle'] at hl'
      cases hl'
      exact e1.ge

/-- The timestamp-ordering invariant holds along any successful run whose
reconstructed epochs are non-decreasing. -/
theorem processRecs_timeInv (tz : Int) : ∀ (recs : List CTRK.Rec) (st st' : CTRK.PState),
    CTRK.processRecs tz st recs = some st' → CTRK.stepsMono tz st recs = true →
    CTRK.TimeInv st → CTRK.TimeInv st' := by
  intro recs
  induction recs with
  | nil =>
    intro st st' h _ hi
    cases h
    exact hi
  | cons r rs ih =>
    intro st st' h hm hi
    unfold CTRK.processRecs at h
    unfold CTRK.stepsMono at hm
    rcases hs : CTRK.stepRec tz st r with - | stm
    · rw [hs] at h
      simp at h
    · rw [hs] at h
      simp only [hs, Bool.and_eq_true, decide_eq_true_eq] at hm
      simp only [Option.some_bind] at h
      exact ih stm st' h hm.2 (stepRec_timeInv tz st r stm hs hm.1 hi)

/-- A 0x0258 payload with fewer than 4 data bytes raises IndexError at the
very first byte accesses. -/
theorem parse_can_0x0258_short (d : List Nat) (chan : CTRK.ChanState)
    (h : d.length < 4) : CTRK.parse_can_0x0258 d chan = none := by
  match d, h with
  | [], _ => rfl
  | [a], _ => rfl
  | [a, b], _ => rfl
  | [a, b, c], _ => rfl

/-- Dispatch of a 0x023E record with fewer than 4 data bytes is a no-op. -/
theorem canDispatch_short_023e (d : List Nat) (chan : CTRK.ChanState) (acc : Nat)
    (hlen : d.length < 4) :
    CTRK.canDispatch 0x023E d chan acc = some (chan, acc) := by
  unfold CTRK.canDispatch
  rw [if_neg (fun hand => absurd hand.2 (by omega))]
  norm_num

/-- Dispatch of a 0x0258 record with fewer than 4 data bytes raises. -/
theorem canDispatch_short_0258 (d : List Nat) (chan : CTRK.ChanState) (acc : Nat)
    (hlen : d.length < 4) :
    CTRK.canDispatch 0x0258 d chan acc = none := by
  unfold CTRK.canDispatch
  rw [if_neg (fun hand => absurd hand.1 (by norm_num))]
  norm_num [parse_can_0x0258_short d chan hlen]

/-- With the GPS gate closed the emission check does nothing. -/
theorem emissionCheck_closed (st : CTRK.PState) (hg : st.hasGprmc = false) :
    CTRK.emissionCheck st = st := by
  unfold CTRK.emissionCheck
  rw [if_neg]
  simp [hg]

/-- A checksum-valid GPRMC while the gate is closed flips the gate and emits
exactly one sample stamped with the current emission clock. -/
theorem gpsUpdate_flip (st : CTRK.PState) (payload : List Nat)
    (hg : st.hasGprmc = false)
    (hpre : CTRK.gprmcMarker.isPrefixOf (CTRK.decodeSentence payload) = true)
    (hck : CTRK.validateNmeaChecksum (CTRK.decodeSentence payload) = true) :
    (CTRK.gpsUpdate st payload).hasGprmc = true ∧
    ∃ sm, (CTRK.gpsUpdate st payload).samples = st.samples ++ [sm] ∧
      sm.time_ms = st.lastEmit.getD 0 := by
  unfold CTRK.gpsUpdate
  simp only [hpre, hck, if_true]
  rcases hp : CTRK.parse_gprmc_sentence (CTRK.decodeSentence payload) with - | g
  all_goals simp only [hp]
  · simp only [hg, Bool.false_eq_true, if_false]
    obtain ⟨pl, pn, cl, fa, fu, hsh⟩ :=
      checkLapCrossing_shape { st with hasGprmc := true } st.curLat st.curLon
    rw [hsh]
    exact ⟨rfl, _, rfl, rfl⟩
  · simp only [hg, Bool.false_eq_true, if_false]
    obtain ⟨pl, pn, cl, fa, fu, hsh⟩ :=
      checkLapCrossing_shape
        { st with curLat := g.1, curLon := g.2.1, curSpeed := g.2.2, hasGprmc := true } g.1 g.2.1
    rw [hsh]
    exact ⟨rfl, _, rfl, rfl⟩

/-- Claim C4 counterexample: a type-1 CAN record for 0x0258 whose DLC data
is empty is not skipped; the handler raises IndexError and parsing aborts
with no output. -/
theorem c4_counterexample : CTRK.parseDataSection 0 none CTRK.recsShort0258 = none := by
  decide

/-- Claim C4 (amended): only 0x023E guards its payload length — a 0x023E
record with fewer than 4 data bytes is skipped silently with channel state
and fuel accumulator unchanged — while for the other handled identifiers
(here 0x0258) a too-short payload raises an uncaught IndexError and the
parse aborts. -/
theorem c4_short_payload_dispatch (tz : Int) (st : CTRK.PState) (r : CTRK.Rec) :
    (st.prevTs = some r.ts → r.rtype = 1 → 5 ≤ r.payload.length →
      r.payload.getD 0 0 ||| ((r.payload.getD 1 0) <<< 8) = 0x023E →
      (r.payload.drop 5).length < 4 → st.hasGprmc = false →
      ∃ st', CTRK.stepRec tz st r = some st' ∧ st'.chan = st.chan ∧
        st'.fuelAcc = st.fuelAcc) ∧
    (st.prevTs = some r.ts → r.rtype = 1 → 5 ≤ r.payload.length →
      r.payload.getD 0 0 ||| ((r.payload.getD 1 0) <<< 8) = 0x0258 →
      (r.payload.drop 5).length < 4 →
      CTRK.stepRec tz st r = none) := by
  constructor
  · intro hprev hr1 hlen5 hid hlen4 hgate
    have h1 := timestampUpdate_of_same tz st r hprev
    have hpay : ∀ (s : CTRK.PState), CTRK.payloadUpdate s r = some s := by
      intro s
      unfold CTRK.payloadUpdate
      rw [if_pos ⟨hr1, hlen5⟩]
      simp only []
      rw [hid, canDispatch_short_023e _ _ _ hlen4]
      rfl
    set st2 := (if st.lastEmit = none then { st with lastEmit := some st.curEpoch } else st) with hst2
    have hst2g : st2.hasGprmc = false := by
      rw [hst2]
      split <;> exact hgate
    have hst2c : st2.chan = st.chan := by
      rw [hst2]
      split <;> rfl
    have hst2f : st2.fuelAcc = st.fuelAcc := by
      rw [hst2]
      split <;> rfl
    refine ⟨st2, ?_, hst2c, hst2f⟩
    unfold CTRK.stepRec
    rw [h1]
    simp only [Option.some_bind]
    rw [← hst2, hpay st2]
    simp only [Option.map_some']
    rw [emissionCheck_closed st2 hst2g]
  · intro hprev hr1 hlen5 hid hlen4
    have h1 := timestampUpdate_of_same tz st r hprev
    unfold CTRK.stepRec
    rw [h1]
    simp only [Option.some_bind]
    unfold CTRK.payloadUpdate
    rw [if_pos ⟨hr1, hlen5⟩]
    simp only []
    rw [hid, canDispatch_short_0258 _ _ _ hlen4]
    rfl

/-- Witness for C4 at a concrete mid-stream state: a 2-byte 0x023E payload
is skipped with the state unchanged, and an empty 0x0258 payload aborts. -/
theorem c4_short_payload_dispatch_witness :
    (∃ st', CTRK.stepRec 0 CTRK.c4St CTRK.c4Rec023e = some st' ∧
      st'.chan = CTRK.c4St.chan ∧ st'.fuelAcc = CTRK.c4St.fuelAcc) ∧
    CTRK.stepRec 0 CTRK.c4St CTRK.c4Rec0258 = none := by
  constructor
  · exact (c4_short_payload_dispatch 0 CTRK.c4St CTRK.c4Rec023e).1 rfl rfl
      (by decide) (by decide) (by decide) rfl
  · exact (c4_short_payload_dispatch 0 CTRK.c4St CTRK.c4Rec0258).2 rfl rfl
      (by decide) (by decide) (by decide)

/-- Claim C10: a record whose calendar fields do not form a valid datetime
(for example month 0) and that reaches the full-recomputation branch makes
parse() abort with an exception — here, the whole run returns none instead
of a sample list. -/
theorem c10_invalid_calendar_aborts (tz : Int) (fl : Option CTRK.FinishLine)
    (pre : List CTRK.Rec) (r : CTRK.Rec) (rest : List CTRK.Rec) (st : CTRK.PState)
    (hpre : CTRK.processRecs tz (CTRK.initPState fl) pre = some st)
    (hreach : st.prevTs = none ∨ ∃ p, st.prevTs = some p ∧ r.ts.drop 2 ≠ p.drop 2)
    (hbad : CTRK.getTimeData tz r.ts = none) :
    CTRK.parseDataSection tz fl (pre ++ r :: rest) = none := by
  have hstep : CTRK.timestampUpdate tz st r = none := by
    unfold CTRK.timestampUpdate
    rcases hreach with hnone | ⟨p, hp, hdrop⟩
    · rw [if_pos (Or.inl hnone)]
      simp only [hnone, hbad, Option.map_none']
    · have hne : st.prevTs ≠ some r.ts := by
        rw [hp]
        intro hcon
        injection hcon with hcon
        exact hdrop (by rw [hcon])
      rw [if_pos (Or.inr hne)]
      simp only [hp]
      rw [if_neg hdrop, hbad]
      rfl
  have hstep' : CTRK.stepRec tz st r = none := by
    unfold CTRK.stepRec
    rw [hstep]
    rfl
  unfold CTRK.parseDataSection
  rw [processRecs_append, hpre]
  simp only [Option.some_bind]
  unfold CTRK.processRecs
  rw [hstep']
  rfl

/-- Witness for C10: a single record with month byte 0 aborts the parse. -/
theorem c10_invalid_calendar_aborts_witness :
    CTRK.parseDataSection 0 none ([] ++ CTRK.c10Rec :: []) = none :=
  c10_invalid_calendar_aborts 0 none [] CTRK.c10Rec [] (CTRK.initPState none) rfl
    (Or.inl rfl) (by decide)

/-- Claim C5 counterexample: with a type-5 lap marker 500 ms after the first
record and before the first GPRMC, the initial sample is stamped with the
re-aligned emission clock 1685577600500 and not with the very first record's
epoch 1685577600000. -/
theorem c5_counterexample :
    CTRK.getTimeData 0 CTRK.tsA = some 1685577600000 ∧
    (CTRK.parseDataSection 0 none CTRK.recsMarkerThenGprmc).map
      (fun l => l.map fun sm => sm.time_ms) = some [1685577600500, 1685577600500] ∧
    (1685577600500 : Int) ≠ 1685577600000 := by
  exact ⟨by decide, by decide, by decide⟩

/-- Claim C5 (amended): the GPS gate starts closed; while it is closed no
sample of any kind has been emitted; and the first checksum-valid GPRMC —
regardless of its status field, no hypothesis constrains it — flips the gate
and emits exactly one initial sample stamped with the current emission-clock
value last_emit_ms (the epoch of the first record, or of the latest type-5
marker if one intervened), not necessarily the first record's epoch. -/
theorem c5_gprmc_gate (tz : Int) (fl : Option CTRK.FinishLine) :
    (CTRK.initPState fl).hasGprmc = false ∧
    (∀ (recs : List CTRK.Rec) (st' : CTRK.PState),
      CTRK.processRecs tz (CTRK.initPState fl) recs = some st' →
      st'.hasGprmc = false → st'.samples = []) ∧
    (∀ (st : CTRK.PState) (r : CTRK.Rec) (L : Int),
      st.hasGprmc = false → st.samples = [] → st.prevTs = some r.ts →
      st.lastEmit = some L → r.rtype = 2 → 6 < r.payload.length →
      CTRK.gprmcMarker.isPrefixOf (CTRK.decodeSentence r.payload) = true →
      CTRK.validateNmeaChecksum (CTRK.decodeSentence r.payload) = true →
      st.curEpoch - L < 100 →
      ∃ st', CTRK.stepRec tz st r = some st' ∧ st'.hasGprmc = true ∧
        (st'.samples.map fun sm => sm.time_ms) = [L]) := by
  refine ⟨rfl, ?_, ?_⟩
  · intro recs st' h
    exact processRecs_gate tz recs _ st' h (fun _ => rfl)
  · intro st r L hg hsamp hprev hL hr2 hlen hpre hck hlt
    have h1 := timestampUpdate_of_same tz st r hprev
    have hst2 : (if st.lastEmit = none then { st with lastEmit := some st.curEpoch } else st) = st := by
      rw [if_neg]
      rw [hL]
      exact fun hcon => Option.noConfusion hcon
    have hpay : CTRK.payloadUpdate st r = some (CTRK.gpsUpdate st r.payload) := by
      unfold CTRK.payloadUpdate
      rw [if_neg (fun hand => by rw [hr2] at hand; exact absurd hand.1 (by norm_num)),
        if_pos ⟨hr2, hlen⟩]
    obtain ⟨hflip, sm, hsm, htm⟩ := gpsUpdate_flip st r.payload hg hpre hck
    have hemitid : CTRK.emissionCheck (CTRK.gpsUpdate st r.payload) =
        CTRK.gpsUpdate st r.payload := by
      unfold CTRK.emissionCheck
      rw [if_neg]
      intro hco
      rw [Bool.and_eq_true] at hco
      have h2 := hco.2
      simp only [(gpsUpdate_facts st r.payload).2.1, hL] at h2
      rw [decide_eq_true_eq, (gpsUpdate_facts st r.payload).1] at h2
      omega
    refine ⟨CTRK.gpsUpdate st r.payload, ?_, hflip, ?_⟩
    · unfold CTRK.stepRec
      rw [h1]
      simp only [Option.some_bind]
      rw [hst2, hpay]
      simp only [Option.map_some', hemitid]
    · rw [hsm, hsamp]
      simp only [List.nil_append, List.map_cons, List.map_nil, htm, hL, Option.getD_some]

/-- Witness for C5: a checksum-valid GPRMC without an active fix (and hence
with no position fields at all) flips the gate at a concrete state and emits
one sample stamped with the pending emission clock 1685577600123. -/
theorem c5_gprmc_gate_witness :
    ∃ st', CTRK.stepRec 0 CTRK.c5St CTRK.c5Rec = some st' ∧ st'.hasGprmc = true ∧
      (st'.samples.map fun sm => sm.time_ms) = [1685577600123] :=
  (c5_gprmc_gate 0 none).2.2 CTRK.c5St CTRK.c5Rec 1685577600123 rfl rfl rfl rfl rfl
    (by decide) (by decide) (by decide) (by decide)

/-- Claim C8 counterexample: a single-GPRMC stream yields two samples with
the same epoch (the initial sample and the final flush), so the sequence is
not strictly increasing. -/
theorem c8_counterexample :
    (CTRK.parseDataSection 0 none CTRK.recsOneGprmc).map
      (fun l => l.map fun sm => sm.time_ms) =
      some [1685577600000, 1685577600000] ∧
    ¬ (1685577600000 : Int) < 1685577600000 := by
  exact ⟨by decide, by decide⟩

/-- Claim C8 (amended): whenever the reconstructed epochs are non-decreasing
along the run, the emitted samples (final flush included) are ordered
non-decreasingly by epoch; the order is not strict. -/
theorem c8_sample_times (tz : Int) (fl : Option CTRK.FinishLine)
    (recs : List CTRK.Rec) (out : List CTRK.Sample)
    (h : CTRK.parseDataSection tz fl recs = some out)
    (hm : CTRK.stepsMono tz (CTRK.initPState fl) recs = true) :
    List.Chain' (· ≤ ·) (out.map fun sm => sm.time_ms) := by
  unfold CTRK.parseDataSection at h
  rcases hp : CTRK.processRecs tz (CTRK.initPState fl) recs with - | stF
  · rw [hp] at h
    simp at h
  · rw [hp] at h
    simp only [Option.map_some', Option.some.injEq] at h
    subst h
    have hInv := processRecs_timeInv tz recs _ stF hp hm
      ⟨List.chain'_nil, fun sm hsm => absurd hsm (List.not_mem_nil sm),
       fun l hl => Option.noConfusion hl, fun _ => rfl⟩
    rcases finalFlush_facts stF with hf | ⟨sm, hf, htm, -⟩
    · rw [hf]
      exact hInv.1
    · rw [hf, List.map_append]
      simp only [List.map_cons, List.map_nil]
      refine chain_le_snoc _ _ hInv.1 ?_
      intro t ht
      rcases List.mem_map.1 ht with ⟨sm', hsm', rfl⟩
      rw [htm]
      exact hInv.2.1 sm' hsm'

/-- Witness for C8: the single-GPRMC run satisfies the monotonicity
hypothesis and its output is non-decreasing in epoch. -/
theorem c8_sample_times_witness :
    CTRK.stepsMono 0 (CTRK.initPState none) CTRK.recsOneGprmc = true ∧
    ∃ out, CTRK.parseDataSection 0 none CTRK.recsOneGprmc = some out ∧
      List.Chain' (· ≤ ·) (out.map fun sm => sm.time_ms) := by
  refine ⟨by decide, ?_⟩
  rcases hout : CTRK.parseDataSection 0 none CTRK.recsOneGprmc with - | out
  · exact absurd hout (by decide)
  · exact ⟨out, rfl, c8_sample_times 0 none CTRK.recsOneGprmc out hout (by decide)⟩

/-- Claim C9 counterexample: samples emitted before any 0x0258 record carry
the initial lean value 0, which is not at least 9000. -/
theorem c9_counterexample :
    (CTRK.parseDataSection 0 none CTRK.recsOneGprmc).map
      (fun l => l.map fun sm => sm.lean_raw) = some [0, 0] ∧
    ¬ 9000 ≤ (0 : Nat) := by
  exact ⟨by decide, by decide⟩

/-- Claim C9 (amended): every emitted sample's lean value is a multiple of
100, and is either the initial 0 (before any 0x0258 record was processed) or
at least 9000; the claimed lower bound 9000 fails only for the initial 0. -/
theorem c9_lean_values (tz : Int) (fl : Option CTRK.FinishLine)
    (recs : List CTRK.Rec) (out : List CTRK.Sample)
    (h : CTRK.parseDataSection tz fl recs = some out) :
    ∀ sm ∈ out, sm.lean_raw % 100 = 0 ∧ (sm.lean_raw = 0 ∨ 9000 ≤ sm.lean_raw) := by
  unfold CTRK.parseDataSection at h
  rcases hp : CTRK.processRecs tz (CTRK.initPState fl) recs with - | stF
  · rw [hp] at h
    simp at h
  · rw [hp] at h
    simp only [Option.map_some', Option.some.injEq] at h
    subst h
    have hInv := processRecs_leanInv tz recs _ stF hp
      ⟨⟨rfl, Or.inl rfl⟩, fun sm hsm => absurd hsm (List.not_mem_nil sm)⟩
    rcases finalFlush_facts stF with hf | ⟨sm, hf, -, hlean⟩
    · rw [hf]
      exact hInv.2
    · rw [hf]
      intro x hx
      rcases List.mem_append.1 hx with hx | hx
      · exact hInv.2 x hx
      · rcases List.mem_singleton.1 hx with rfl
        rw [hlean]
        exact hInv.1

/-- Witness for C9: the single-GPRMC run's samples all satisfy the amended
lean invariant. -/
theorem c9_lean_values_witness :
    ∃ out, CTRK.parseDataSection 0 none CTRK.recsOneGprmc = some out ∧
      ∀ sm ∈ out, sm.lean_raw % 100 = 0 ∧ (sm.lean_raw = 0 ∨ 9000 ≤ sm.lean_raw) := by
  rcases hout : CTRK.parseDataSection 0 none CTRK.recsOneGprmc with - | out
  · exact absurd hout (by decide)
  · exact ⟨out, rfl, c9_lean_values 0 none CTRK.recsOneGprmc out hout⟩

/-- Witness for C1: the 8-byte payload with sum 12345 satisfies the length
hypothesis and decodes to lean 12300, lean_signed 12300. -/
theorem c1_lean_decoding_witness :
    8 ≤ ([3, 3, 0, 144, 0, 0, 0, 0] : List Nat).length ∧
    CTRK.parse_can_0x0258 [3, 3, 0, 144, 0, 0, 0, 0] ({} : CTRK.ChanState) =
      some { lean_raw := 12300, lean_signed := 12300, pitch := 0 } := by
  refine ⟨by decide, ?_⟩
  have h := (c1_lean_decoding [3, 3, 0, 144, 0, 0, 0, 0] ({} : CTRK.ChanState) (by decide)).1
  rw [h]
  decide
